import Mathlib

/-!
Shallow embedding of the adaptive playback clock-recovery engine of
`src/client/src/audio.c` (Looking Glass audio client).

Modelling conventions:

* C `double` values are modelled as exact rationals (`ℚ`).  The double
  literals of the source (`0.05`, `0.2`, `1.1`, `1.0e9`, ...) are taken at
  their exact decimal value; `M_PI` and `M_SQRT2` are taken at the exact
  value of the IEEE-754 double constants of `<math.h>`.
* `int`/`int64_t` values are modelled as `Int`.  None of the claims
  exercises overflow, so no `% 2^64` wrapping is applied.
* `llrint` (round to nearest, ties to even, the default rounding mode) and
  `round` (round half away from zero) are modelled exactly on `ℚ`.
* The ring buffer (`common/ringbuffer.c`, not part of the sources) is
  modelled from the spec: an unbounded FIFO represented by its frame count;
  `append(NULL, n)` / `consume(NULL, n)` move the cursors by `n` without
  transferring data.  Buffer operations and backend callbacks are recorded
  in an explicit effect trace so that theorems can speak about which calls
  were made.
* `src_process` of libsamplerate is an external component; it is modelled
  as an oracle mapping (call index, available input frames) to a result
  record, and the C `while` loop is driven by fuel (the C loop has no
  intrinsic termination guarantee if the resampler never consumes input).
-/

namespace LGAudio

/-- Exact value of the IEEE-754 double constant `M_PI` from math.h. -/
def M_PI : ℚ := 884279719003555 / 281474976710656

/-- Exact value of the IEEE-754 double constant `M_SQRT2` from math.h. -/
def M_SQRT2 : ℚ := 6369051672525773 / 4503599627370496

/-- `INT64_MIN`, used by the source as the sentinel for
"no sink tick observed yet". -/
def INT64_MIN : Int := -(2 ^ 63)

/-- C `llrint` under the default rounding mode: round to nearest,
ties to even. -/
def c_llrint (x : ℚ) : Int :=
  let f := ⌊x⌋
  let r := x - (f : ℚ)
  if r < 1 / 2 then f
  else if 1 / 2 < r then f + 1
  else if f % 2 = 0 then f else f + 1

/-- C `round`: round to nearest, ties away from zero. -/
def c_round (x : ℚ) : Int :=
  if 0 ≤ x then ⌊x + 1 / 2⌋ else -⌊-x + 1 / 2⌋

/-- `StreamState` enumeration of audio.c. -/
inductive StreamState
  | stop
  | setup
  | run
  | drain
  deriving DecidableEq, Repr

/-- The `STREAM_ACTIVE` macro: state is SETUP or RUN. -/
def STREAM_ACTIVE (s : StreamState) : Bool :=
  s = StreamState.setup || s = StreamState.run

/-- `PlaybackDeviceTick`: timing snapshot posted by the sink thread. -/
structure PlaybackDeviceTick where
  periodFrames : Int
  nextTime : Int
  nextPosition : Int
  deriving DecidableEq, Repr

/-- Observable calls made by the engine into the ring buffer and the
backend.  Buffer counts of `NULL`-argument calls are kept so that theorems
can talk about discarded / silence-filled frames. -/
inductive Effect
  | consumeNull (n : Int)
  | consumeData (n : Int)
  | appendNull (n : Int)
  | appendData (n : Int)
  | pushTick (t : PlaybackDeviceTick)
  | srcProcess (ratio : ℚ) (used gen : Int)
  | devStart
  | devStop
  | pbSetup (channels sampleRate : Int)
  | pbVolume (channels : Int) (volume : List Nat)
  | pbMute (m : Bool)
  | recordStartDev (channels sampleRate : Int)
  | recordStopDev
  | recordVolume (channels : Int) (volume : List Nat)
  | recordMute (m : Bool)
  deriving DecidableEq, Repr

/-- Net change of the coupling-buffer frame count caused by one effect. -/
def Effect.bufDelta : Effect → Int
  | .consumeNull n => -n
  | .consumeData n => -n
  | .appendNull n => n
  | .appendData n => n
  | _ => 0

/-- Net change of the coupling-buffer frame count caused by an effect
trace. -/
def bufDelta (l : List Effect) : Int :=
  (l.map Effect.bufDelta).sum

/-- Total frames of resampler output appended to the coupling buffer by an
effect trace (the `appendData` entries). -/
def appendedFrames : List Effect → Int
  | [] => 0
  | .appendData n :: t => n + appendedFrames t
  | _ :: t => appendedFrames t

/-- `PlaybackDeviceData`: sink-side clock-tracker state (device thread). -/
structure PlaybackDeviceData where
  periodFrames : Int
  periodSec : ℚ
  nextTime : Int
  nextPosition : Int
  b : ℚ
  c : ℚ
  deriving DecidableEq, Repr

/-- `PlaybackSpiceData`: source-side clock tracker, offset filter, rate
controller and scratch-buffer bookkeeping (Spice thread).  The float
pointers are modelled by allocation flags plus the recorded
`framesOutSize`. -/
structure PlaybackSpiceData where
  framesInAlloc : Bool
  framesOutAlloc : Bool
  framesOutSize : Int
  periodFrames : Int
  periodSec : ℚ
  nextTime : Int
  nextPosition : Int
  b : ℚ
  c : ℚ
  devPeriodFrames : Int
  devLastTime : Int
  devNextTime : Int
  devLastPosition : Int
  devNextPosition : Int
  offsetError : ℚ
  offsetErrorIntegral : ℚ
  ratioIntegral : ℚ
  deriving DecidableEq, Repr

/-- Sink-side clock-tracker update, lines 220-268 of audio.c (the body of
`playbackPullFrames` that measures the device clock).  Returns the new
tracker state together with the ring-buffer calls it makes. -/
def deviceClockUpdate (sampleRate now frames : Int) (d : PlaybackDeviceData) :
    PlaybackDeviceData × List Effect :=
  if frames ≠ d.periodFrames then
    let newPeriodSec : ℚ := (frames : ℚ) / (sampleRate : ℚ)
    let nextTime' : Int :=
      if d.periodFrames = 0 then now + c_llrint (newPeriodSec * 1.0e9)
      else d.nextTime + c_llrint (d.periodSec * 1.0e9)
    let bandwidth : ℚ := 0.05
    let omega : ℚ := 2 * M_PI * bandwidth * newPeriodSec
    ({ periodFrames := frames
       periodSec := newPeriodSec
       nextTime := nextTime'
       nextPosition := d.nextPosition + frames
       b := M_SQRT2 * omega
       c := omega * omega }, [])
  else
    let error : ℚ := ((now - d.nextTime : Int) : ℚ) * 1.0e-9
    if 0.2 ≤ |error| then
      let slewFrames : Int := c_round (error * (sampleRate : ℚ))
      let newPeriodSec : ℚ := (frames : ℚ) / (sampleRate : ℚ)
      ({ d with
         periodSec := newPeriodSec
         nextTime := now + c_llrint (newPeriodSec * 1.0e9)
         nextPosition := d.nextPosition + slewFrames + frames },
       [Effect.consumeNull slewFrames])
    else
      ({ d with
         nextTime := d.nextTime + c_llrint ((d.b * error + d.periodSec) * 1.0e9)
         periodSec := d.periodSec + d.c * error
         nextPosition := d.nextPosition + frames }, [])

/-- Result of the source-side clock-tracker update: the exposed
`curTime` / `curPosition` pair, the new tracker state and the ring-buffer
calls made. -/
structure SpiceClockOut where
  curTime : Int
  curPosition : Int
  sp : PlaybackSpiceData
  effs : List Effect
  deriving Repr

/-- Source-side clock-tracker update, lines 453-498 of audio.c.
`periodChanged` and `init` are the local flags computed at lines 409-410
(from the period size before the scratch-buffer reallocation updated
`periodFrames`). -/
def spiceClockUpdate (sampleRate now frames : Int)
    (periodChanged init : Bool) (sp : PlaybackSpiceData) : SpiceClockOut :=
  if periodChanged then
    let nextTime0 : Int := if init then now else sp.nextTime
    let newPeriodSec : ℚ := (frames : ℚ) / (sampleRate : ℚ)
    let bandwidth : ℚ := 0.05
    let omega : ℚ := 2 * M_PI * bandwidth * newPeriodSec
    { curTime := nextTime0
      curPosition := sp.nextPosition
      sp := { sp with
              periodSec := newPeriodSec
              nextTime := nextTime0 + c_llrint (newPeriodSec * 1.0e9)
              b := M_SQRT2 * omega
              c := omega * omega }
      effs := [] }
  else
    let error : ℚ := ((now - sp.nextTime : Int) : ℚ) * 1.0e-9
    if 0.2 ≤ |error| then
      let slewFrames : Int := c_round (error * (sampleRate : ℚ))
      let newPeriodSec : ℚ := (frames : ℚ) / (sampleRate : ℚ)
      { curTime := now
        curPosition := sp.nextPosition + slewFrames
        sp := { sp with
                periodSec := newPeriodSec
                nextTime := now + c_llrint (newPeriodSec * 1.0e9)
                nextPosition := sp.nextPosition + slewFrames }
        effs := [Effect.appendNull slewFrames] }
    else
      { curTime := sp.nextTime
        curPosition := sp.nextPosition
        sp := { sp with
                nextTime := sp.nextTime +
                  c_llrint ((sp.b * error + sp.periodSec) * 1.0e9)
                periodSec := sp.periodSec + sp.c * error }
        effs := [] }

/-- Target latency computation, lines 522-562 of audio.c. -/
def targetLatencyFrames (sampleRate deviceMaxPeriodFrames devPeriodFrames : Int) : ℚ :=
  let spiceJitterMs : Int := 13
  let base : ℚ := ((spiceJitterMs * sampleRate : Int) : ℚ) / 1000.0 +
    (deviceMaxPeriodFrames : ℚ) * 1.1
  if devPeriodFrames < deviceMaxPeriodFrames then
    base + ((deviceMaxPeriodFrames - devPeriodFrames : Int) : ℚ)
  else base

/-- Result of the offset-estimation block: the computed `actualOffset`
local, the captured pre-update `offsetError` local, and the updated
source-side state. -/
structure OffsetOut where
  actualOffset : ℚ
  offsetErrorPre : ℚ
  sp : PlaybackSpiceData
  deriving Repr

/-- Offset estimation and second-order filtering, lines 505-571 of
audio.c.  Executed only when at least one sink tick pair has been
observed (`devLastTime != INT64_MIN`). -/
def offsetUpdate (sampleRate deviceMaxPeriodFrames : Int)
    (curTime curPosition : Int) (sp : PlaybackSpiceData) : OffsetOut :=
  let offsetErrorPre : ℚ := sp.offsetError
  if sp.devLastTime ≠ INT64_MIN then
    let devPosition : ℚ := (sp.devLastPosition : ℚ) +
      ((sp.devNextPosition - sp.devLastPosition : Int) : ℚ) *
        (((curTime - sp.devLastTime : Int) : ℚ) /
          ((sp.devNextTime - sp.devLastTime : Int) : ℚ))
    let target : ℚ := targetLatencyFrames sampleRate deviceMaxPeriodFrames
      sp.devPeriodFrames
    let actualOffset : ℚ := (curPosition : ℚ) - devPosition
    let actualOffsetError : ℚ := -(actualOffset - target)
    let e : ℚ := actualOffsetError - offsetErrorPre
    { actualOffset := actualOffset
      offsetErrorPre := offsetErrorPre
      sp := { sp with
              offsetError := sp.offsetError + sp.b * e + sp.offsetErrorIntegral
              offsetErrorIntegral := sp.offsetErrorIntegral + sp.c * e } }
  else
    { actualOffset := 0, offsetErrorPre := offsetErrorPre, sp := sp }

/-- PI gain `kp` of the rate controller (line 575). -/
def kp : ℚ := 0.5e-6

/-- PI gain `ki` of the rate controller (line 576). -/
def ki : ℚ := 1.0e-16

/-- Result of the PI rate controller step. -/
structure PiOut where
  ratioIntegral : ℚ
  ratio : ℚ
  deriving Repr

/-- PI rate-controller step, lines 575-581 of audio.c.  `offsetErrorPre`
is the local `offsetError` captured before the offset filter ran. -/
def piController (offsetErrorPre periodSec ratioIntegral0 : ℚ) : PiOut :=
  let ratioIntegral1 := ratioIntegral0 + offsetErrorPre * periodSec
  { ratioIntegral := ratioIntegral1
    ratio := 1.0 + (kp * offsetErrorPre + ki * ratioIntegral1) }

/-- One `src_process` call result: error flag, `input_frames_used` and
`output_frames_gen`. -/
structure SrcStep where
  err : Bool
  used : Int
  gen : Int
  deriving DecidableEq, Repr

/-- How the resampler driver loop finished: the loop condition became
false, `src_process` reported an error, or the fuel ran out (in C: the
loop is still running). -/
inductive DriverOutcome
  | done
  | errored
  | fuelOut
  deriving DecidableEq, Repr

/-- Result of the resampler driver loop. -/
structure DriverOut where
  outcome : DriverOutcome
  consumed : Int
  bufCount : Int
  nextPosition : Int
  effs : List Effect
  deriving Repr

/-- The resampler driver loop, lines 583-611 of audio.c.  The oracle maps
(call index, `input_frames`) to the `src_process` result of that call;
`fuel` bounds the number of iterations modelled. -/
def resampleDriver (oracle : Nat → Int → SrcStep) (ratio : ℚ) (frames : Int) :
    Nat → Nat → Int → Int → Int → DriverOut
  | 0, _, consumed, bufCount, nextPosition =>
    if consumed < frames then
      { outcome := DriverOutcome.fuelOut, consumed := consumed,
        bufCount := bufCount, nextPosition := nextPosition, effs := [] }
    else
      { outcome := DriverOutcome.done, consumed := consumed,
        bufCount := bufCount, nextPosition := nextPosition, effs := [] }
  | fuel + 1, i, consumed, bufCount, nextPosition =>
    if consumed < frames then
      let s := oracle i (frames - consumed)
      if s.err then
        { outcome := DriverOutcome.errored, consumed := consumed,
          bufCount := bufCount, nextPosition := nextPosition,
          effs := [Effect.srcProcess ratio s.used s.gen] }
      else
        let rest := resampleDriver oracle ratio frames fuel (i + 1)
          (consumed + s.used) (bufCount + s.gen) (nextPosition + s.gen)
        { rest with effs := Effect.srcProcess ratio s.used s.gen ::
            Effect.appendData s.gen :: rest.effs }
    else
      { outcome := DriverOutcome.done, consumed := consumed,
        bufCount := bufCount, nextPosition := nextPosition, effs := [] }

/-- The engine state: the fields of the file-scope `audio` singleton of
audio.c that the modelled operations touch, with ring buffers modelled by
allocation flags and frame counts, plus the two `static` locals of
`audio_recordStart`. -/
structure Audio where
  state : StreamState
  channels : Int
  sampleRate : Int
  deviceMaxPeriodFrames : Int
  bufferAlloc : Bool
  bufCount : Int
  deviceTimingAlloc : Bool
  deviceTiming : List PlaybackDeviceTick
  timingsAlloc : Bool
  graphRegistered : Bool
  srcAlloc : Bool
  deviceData : PlaybackDeviceData
  spiceData : PlaybackSpiceData
  pbVolumeChannels : Int
  pbVolume : List Nat
  pbMute : Bool
  recStarted : Bool
  recVolumeChannels : Int
  recVolume : List Nat
  recMute : Bool
  recStride : Int
  lastChannels : Int
  lastSampleRate : Int
  deriving Repr

/-- `playbackStop`, lines 182-206 of audio.c: return to STOP, stop the
backend, free the coupling buffer and tick queue, destroy the resampler,
free the scratch buffers if allocated, and tear down the visualization
sink if registered.  A no-op when already stopped. -/
def playbackStop (a : Audio) : Audio × List Effect :=
  if a.state = StreamState.stop then (a, [])
  else
    let sp := if a.spiceData.framesInAlloc then
        { a.spiceData with framesInAlloc := false, framesOutAlloc := false }
      else a.spiceData
    ({ a with
       state := StreamState.stop
       bufferAlloc := false
       deviceTimingAlloc := false
       deviceTiming := []
       srcAlloc := false
       spiceData := sp
       timingsAlloc := false
       graphRegistered := if a.timingsAlloc then false else a.graphRegistered },
     [Effect.devStop])

/-- Body of `playbackPullFrames` for a nonzero request (lines 214-281 of
audio.c): when a stream buffer exists, run the sink clock tracker, post
the timing tick to the tick queue and consume the requested frames;
otherwise deliver nothing. -/
def pullBody (now frames : Int) (a : Audio) : Audio × Int × List Effect :=
  if a.bufferAlloc then
    let du := deviceClockUpdate a.sampleRate now frames a.deviceData
    let tick : PlaybackDeviceTick :=
      { periodFrames := du.1.periodFrames
        nextTime := du.1.nextTime
        nextPosition := du.1.nextPosition }
    let effs := du.2 ++ [Effect.pushTick tick, Effect.consumeData frames]
    ({ a with
       deviceData := du.1
       deviceTiming := a.deviceTiming ++ [tick]
       bufCount := a.bufCount + bufDelta effs }, frames, effs)
  else (a, 0, [])

/-- `playbackPullFrames`, lines 208-288 of audio.c: the sink pull
callback.  Returns the new engine state, the number of frames delivered,
and the effect trace. -/
def playbackPullFrames (now frames : Int) (a : Audio) :
    Audio × Int × List Effect :=
  if frames = 0 then (a, frames, [])
  else
    let s := pullBody now frames a
    if s.1.state = StreamState.drain ∧ s.1.bufCount ≤ 0 then
      let st := playbackStop s.1
      (st.1, s.2.1, s.2.2 ++ st.2)
    else s

/-- `audio_playbackStart`, lines 290-355 of audio.c.  `maxPeriod` is the
value the backend writes through `deviceMaxPeriodFrames` in
`playback.setup`; resampler creation is modelled as succeeding. -/
def audio_playbackStart (channels sampleRate maxPeriod : Int) (a : Audio) :
    Audio × List Effect :=
  let s0 : Audio × List Effect :=
    if a.state ≠ StreamState.stop then playbackStop a else (a, [])
  let a0 := s0.1
  let volEffs : List Effect :=
    if a0.pbVolumeChannels ≠ 0 then
      [Effect.pbVolume a0.pbVolumeChannels a0.pbVolume]
    else []
  ({ a0 with
     state := StreamState.setup
     channels := channels
     sampleRate := sampleRate
     deviceMaxPeriodFrames := maxPeriod
     srcAlloc := true
     bufferAlloc := true
     bufCount := 0
     deviceTimingAlloc := true
     deviceTiming := []
     timingsAlloc := true
     graphRegistered := true
     deviceData := { a0.deviceData with periodFrames := 0, nextPosition := 0 }
     spiceData := { a0.spiceData with
                    periodFrames := 0
                    nextPosition := 0
                    devLastTime := INT64_MIN
                    devNextTime := INT64_MIN
                    offsetError := 0
                    offsetErrorIntegral := 0
                    ratioIntegral := 0 } },
   s0.2 ++ [Effect.pbSetup channels sampleRate] ++ volEffs ++
     [Effect.pbMute a0.pbMute])

/-- `audio_playbackStop`, lines 357-364 of audio.c: schedule DRAIN. -/
def audio_playbackStop (a : Audio) : Audio × List Effect :=
  if a.state = StreamState.stop then (a, [])
  else ({ a with state := StreamState.drain }, [])

/-- Tick-queue drain loop of `audio_playbackData`, lines 443-451: keep
only the most recent two sink ticks. -/
def spiceTickDrain (ticks : List PlaybackDeviceTick)
    (sp : PlaybackSpiceData) : PlaybackSpiceData :=
  ticks.foldl (fun sp t =>
    { sp with
      devPeriodFrames := t.periodFrames
      devLastTime := sp.devNextTime
      devLastPosition := sp.devNextPosition
      devNextTime := t.nextTime
      devNextPosition := t.nextPosition }) sp

/-- Front end of `audio_playbackData` (lines 406-498 of audio.c): frame
count from the byte size, scratch-buffer reallocation on a period change,
tick-queue drain, and the source-side clock-tracker update. -/
def dataClockView (now size : Int) (a : Audio) : SpiceClockOut :=
  let spiceStride := a.channels * 2
  let frames := size / spiceStride
  let sp0 := a.spiceData
  let periodChanged : Bool := frames ≠ sp0.periodFrames
  let init : Bool := sp0.periodFrames = 0
  let sp1 := if periodChanged then
      { sp0 with
        periodFrames := frames
        framesInAlloc := true
        framesOutAlloc := true
        framesOutSize := c_round ((frames : ℚ) * 1.1) }
    else sp0
  let sp2 := spiceTickDrain a.deviceTiming sp1
  spiceClockUpdate a.sampleRate now frames periodChanged init sp2

/-- Offset-estimation stage of `audio_playbackData` applied to the
clock-stage output (lines 505-571 of audio.c). -/
def dataOffsetView (now size : Int) (a : Audio) : OffsetOut :=
  offsetUpdate a.sampleRate a.deviceMaxPeriodFrames
    (dataClockView now size a).curTime (dataClockView now size a).curPosition
    (dataClockView now size a).sp

/-- PI rate-controller stage of `audio_playbackData` (lines 573-581 of
audio.c): uses the pre-update `offsetError` local captured by the offset
stage. -/
def dataPiView (now size : Int) (a : Audio) : PiOut :=
  piController (dataOffsetView now size a).offsetErrorPre
    (dataOffsetView now size a).sp.periodSec
    (dataOffsetView now size a).sp.ratioIntegral

/-- Resampler-driver stage of `audio_playbackData` (lines 583-611 of
audio.c): drive `src_process` at the controller's ratio until the source
period is consumed, appending output to the coupling buffer. -/
def dataDriverView (oracle : Nat → Int → SrcStep) (fuel : Nat)
    (now size : Int) (a : Audio) : DriverOut :=
  resampleDriver oracle (dataPiView now size a).ratio (size / (a.channels * 2))
    fuel 0 0 (a.bufCount + bufDelta (dataClockView now size a).effs)
    (dataOffsetView now size a).sp.nextPosition

/-- `audio_playbackData`, lines 395-635 of audio.c: the source-data
callback.  `size` is the byte size of the submitted block; the oracle and
fuel drive the resampler loop.  Scratch-buffer allocation is modelled as
succeeding; the timing-graph push at the end touches only the
visualization sink and is not modelled. -/
def audio_playbackData (oracle : Nat → Int → SrcStep) (fuel : Nat)
    (now size : Int) (a : Audio) : Audio × List Effect :=
  if size = 0 then (a, [])
  else if ¬ STREAM_ACTIVE a.state then (a, [])
  else
    let clk := dataClockView now size a
    let pi := dataPiView now size a
    let drv := dataDriverView oracle fuel now size a
    let sp5 := { (dataOffsetView now size a).sp with
                 ratioIntegral := pi.ratioIntegral
                 nextPosition := drv.nextPosition }
    let effs := clk.effs ++ drv.effs
    let a1 := { a with
                spiceData := sp5
                bufCount := drv.bufCount
                deviceTiming := [] }
    if drv.outcome = DriverOutcome.done then
      if a1.state = StreamState.setup then
        let startFrames := sp5.periodFrames * 2 + a.deviceMaxPeriodFrames * 2
        if startFrames ≤ sp5.nextPosition then
          ({ a1 with state := StreamState.run }, effs ++ [Effect.devStart])
        else (a1, effs)
      else (a1, effs)
    else (a1, effs)

/-- `audio_recordStart`, lines 647-679 of audio.c.  Note: the code guards
on the record-side cached volume but forwards the playback-side cached
volume and mute values to the record callbacks. -/
def audio_recordStart (channels sampleRate : Int) (a : Audio) :
    Audio × List Effect :=
  if a.recStarted ∧ channels = a.lastChannels ∧ sampleRate = a.lastSampleRate
  then (a, [])
  else
    let stopEffs : List Effect :=
      if a.recStarted then [Effect.recordStopDev] else []
    let volEffs : List Effect :=
      if a.recVolumeChannels ≠ 0 then
        [Effect.recordVolume a.pbVolumeChannels a.pbVolume]
      else []
    ({ a with
       lastChannels := channels
       lastSampleRate := sampleRate
       recStarted := true
       recStride := channels * 2 },
     stopEffs ++ [Effect.recordStartDev channels sampleRate] ++ volEffs ++
       [Effect.recordMute a.pbMute])

/-- `audio_recordVolume`, lines 690-704 of audio.c: cache the volume
vector (clamped to 8 channels), forward it only when recording. -/
def audio_recordVolume (channels : Int) (volume : List Nat) (a : Audio) :
    Audio × List Effect :=
  let ch := min 8 channels
  let a1 := { a with
              recVolume := volume.take ch.toNat
              recVolumeChannels := ch }
  if a1.recStarted then (a1, [Effect.recordVolume ch volume])
  else (a1, [])

/-- `audio_recordMute`, lines 706-717 of audio.c. -/
def audio_recordMute (m : Bool) (a : Audio) : Audio × List Effect :=
  let a1 := { a with recMute := m }
  if a1.recStarted then (a1, [Effect.recordMute m])
  else (a1, [])

/-- Events of the two-thread pipeline: stream (re)start, a sink pull, a
source data block, and a drain request. -/
inductive Ev
  | start (channels sampleRate maxPeriod : Int)
  | pull (now frames : Int)
  | data (oracle : Nat → Int → SrcStep) (fuel : Nat) (now size : Int)
  | stopReq

/-- Whether an event is a sink pull. -/
def Ev.isPull : Ev → Bool
  | .pull _ _ => true
  | _ => false

/-- One step of the pipeline. -/
def stepEv (a : Audio) : Ev → Audio × List Effect
  | .start c r m => audio_playbackStart c r m a
  | .pull now frames =>
    let r := playbackPullFrames now frames a
    (r.1, r.2.2)
  | .data oracle fuel now size => audio_playbackData oracle fuel now size a
  | .stopReq => audio_playbackStop a

/-- Run a list of events. -/
def runTrace (a : Audio) : List Ev → Audio
  | [] => a
  | e :: rest => runTrace (stepEv a e).1 rest

/-- A trace is good when no sink pull is delivered while the stream is
still in SETUP (the backend starts pulling only after `playback.start`). -/
def goodTrace (a : Audio) : List Ev → Bool
  | [] => true
  | e :: rest =>
    (!e.isPull || decide (a.state ≠ StreamState.setup)) &&
      goodTrace (stepEv a e).1 rest

/-- During SETUP every frame appended for the sink is still resident: the
coupling-buffer count equals the source write position. -/
def SetupResident (a : Audio) : Prop :=
  a.state = StreamState.setup → a.bufCount = a.spiceData.nextPosition

/-- Neutral sink-side tracker state (all fields zero). -/
def basePlaybackDeviceData : PlaybackDeviceData :=
  { periodFrames := 0, periodSec := 0, nextTime := 0, nextPosition := 0,
    b := 0, c := 0 }

/-- Neutral source-side state (fresh-stream values). -/
def basePlaybackSpiceData : PlaybackSpiceData :=
  { framesInAlloc := false, framesOutAlloc := false, framesOutSize := 0,
    periodFrames := 0, periodSec := 0, nextTime := 0, nextPosition := 0,
    b := 0, c := 0, devPeriodFrames := 0, devLastTime := INT64_MIN,
    devNextTime := INT64_MIN, devLastPosition := 0, devNextPosition := 0,
    offsetError := 0, offsetErrorIntegral := 0, ratioIntegral := 0 }

/-- A concrete engine state used to instantiate theorems with hypotheses. -/
def baseAudio : Audio :=
  { state := StreamState.stop, channels := 2, sampleRate := 48000,
    deviceMaxPeriodFrames := 1024, bufferAlloc := false, bufCount := 0,
    deviceTimingAlloc := false, deviceTiming := [], timingsAlloc := false,
    graphRegistered := false, srcAlloc := false,
    deviceData := basePlaybackDeviceData, spiceData := basePlaybackSpiceData,
    pbVolumeChannels := 0, pbVolume := [], pbMute := false,
    recStarted := false, recVolumeChannels := 0, recVolume := [],
    recMute := false, recStride := 0, lastChannels := 0, lastSampleRate := 0 }

/-! ### Helper lemmas -/

theorem appendedFrames_nil : appendedFrames [] = 0 := rfl

theorem appendedFrames_srcProcess (r : ℚ) (u g : Int) (t : List Effect) :
    appendedFrames (Effect.srcProcess r u g :: t) = appendedFrames t := rfl

theorem appendedFrames_appendData (n : Int) (t : List Effect) :
    appendedFrames (Effect.appendData n :: t) = n + appendedFrames t := rfl

theorem bufDelta_nil : bufDelta [] = 0 := rfl

theorem bufDelta_cons (e : Effect) (t : List Effect) :
    bufDelta (e :: t) = e.bufDelta + bufDelta t := by
  simp [bufDelta]

theorem bufDelta_append (l1 l2 : List Effect) :
    bufDelta (l1 ++ l2) = bufDelta l1 + bufDelta l2 := by
  simp [bufDelta]

/-- The sink-side clock update either makes no buffer call or a single
`NULL`-destination consume (the slew). -/
theorem deviceClockUpdate_effs (sampleRate now frames : Int)
    (d : PlaybackDeviceData) :
    (deviceClockUpdate sampleRate now frames d).2 = [] ∨
      ∃ n, (deviceClockUpdate sampleRate now frames d).2 =
        [Effect.consumeNull n] := by
  unfold deviceClockUpdate
  dsimp only
  split
  · exact Or.inl rfl
  · split
    · exact Or.inr ⟨_, rfl⟩
    · exact Or.inl rfl

/-- The source-side clock update either makes no buffer call or a single
`NULL` append (the slew). -/
theorem spiceClockUpdate_effs (sampleRate now frames : Int)
    (pc init : Bool) (sp : PlaybackSpiceData) :
    (spiceClockUpdate sampleRate now frames pc init sp).effs = [] ∨
      ∃ n, (spiceClockUpdate sampleRate now frames pc init sp).effs =
        [Effect.appendNull n] := by
  unfold spiceClockUpdate
  dsimp only
  split
  · exact Or.inl rfl
  · split
    · exact Or.inr ⟨_, rfl⟩
    · exact Or.inl rfl

/-- The source-side clock update moves `nextPosition` by exactly the net
buffer delta of the calls it makes (silence appended by a slew is counted
in the write position). -/
theorem spiceClockUpdate_nextPosition (sampleRate now frames : Int)
    (pc init : Bool) (sp : PlaybackSpiceData) :
    (spiceClockUpdate sampleRate now frames pc init sp).sp.nextPosition =
      sp.nextPosition +
        bufDelta (spiceClockUpdate sampleRate now frames pc init sp).effs := by
  unfold spiceClockUpdate
  dsimp only
  split
  · simp [bufDelta]
  · split <;> simp [bufDelta, Effect.bufDelta]

/-- Fields of the source-side state that the clock update never touches. -/
theorem spiceClockUpdate_preserves (sampleRate now frames : Int)
    (pc init : Bool) (sp : PlaybackSpiceData) :
    (spiceClockUpdate sampleRate now frames pc init sp).sp.periodFrames =
        sp.periodFrames ∧
      (spiceClockUpdate sampleRate now frames pc init sp).sp.offsetError =
        sp.offsetError ∧
      (spiceClockUpdate sampleRate now frames pc init sp).sp.offsetErrorIntegral =
        sp.offsetErrorIntegral ∧
      (spiceClockUpdate sampleRate now frames pc init sp).sp.ratioIntegral =
        sp.ratioIntegral ∧
      (spiceClockUpdate sampleRate now frames pc init sp).sp.devLastTime =
        sp.devLastTime ∧
      (spiceClockUpdate sampleRate now frames pc init sp).sp.devPeriodFrames =
        sp.devPeriodFrames := by
  unfold spiceClockUpdate
  dsimp only
  split
  · simp
  · split <;> simp

/-- The tick-queue drain only rewrites the captured sink-tick fields. -/
theorem spiceTickDrain_preserves (ticks : List PlaybackDeviceTick)
    (sp : PlaybackSpiceData) :
    (spiceTickDrain ticks sp).periodFrames = sp.periodFrames ∧
      (spiceTickDrain ticks sp).periodSec = sp.periodSec ∧
      (spiceTickDrain ticks sp).nextTime = sp.nextTime ∧
      (spiceTickDrain ticks sp).nextPosition = sp.nextPosition ∧
      (spiceTickDrain ticks sp).b = sp.b ∧
      (spiceTickDrain ticks sp).c = sp.c ∧
      (spiceTickDrain ticks sp).offsetError = sp.offsetError ∧
      (spiceTickDrain ticks sp).offsetErrorIntegral = sp.offsetErrorIntegral ∧
      (spiceTickDrain ticks sp).ratioIntegral = sp.ratioIntegral ∧
      (spiceTickDrain ticks sp).framesInAlloc = sp.framesInAlloc ∧
      (spiceTickDrain ticks sp).framesOutAlloc = sp.framesOutAlloc ∧
      (spiceTickDrain ticks sp).framesOutSize = sp.framesOutSize := by
  induction ticks generalizing sp with
  | nil => simp [spiceTickDrain]
  | cons t ts ih =>
    have h := ih ({ sp with
      devPeriodFrames := t.periodFrames
      devLastTime := sp.devNextTime
      devLastPosition := sp.devNextPosition
      devNextTime := t.nextTime
      devNextPosition := t.nextPosition })
    simpa [spiceTickDrain] using h

/-- Fields of the source-side state that the offset filter never
touches. -/
theorem offsetUpdate_preserves (sampleRate maxP ct cp : Int)
    (sp : PlaybackSpiceData) :
    (offsetUpdate sampleRate maxP ct cp sp).sp.periodFrames =
        sp.periodFrames ∧
      (offsetUpdate sampleRate maxP ct cp sp).sp.periodSec = sp.periodSec ∧
      (offsetUpdate sampleRate maxP ct cp sp).sp.nextPosition =
        sp.nextPosition ∧
      (offsetUpdate sampleRate maxP ct cp sp).sp.ratioIntegral =
        sp.ratioIntegral := by
  unfold offsetUpdate
  dsimp only
  split <;> simp

/-- The offset filter captures the pre-update `offsetError` local. -/
theorem offsetUpdate_pre (sampleRate maxP ct cp : Int)
    (sp : PlaybackSpiceData) :
    (offsetUpdate sampleRate maxP ct cp sp).offsetErrorPre =
      sp.offsetError := by
  unfold offsetUpdate
  dsimp only
  split <;> simp

/-- The resampler driver advances the coupling buffer and the source
write position by exactly the appended output blocks. -/
theorem resampleDriver_counts (oracle : Nat → Int → SrcStep) (ratio : ℚ)
    (frames : Int) (fuel i : Nat) (c0 b0 p0 : Int) :
    (resampleDriver oracle ratio frames fuel i c0 b0 p0).nextPosition =
        p0 + appendedFrames
          (resampleDriver oracle ratio frames fuel i c0 b0 p0).effs ∧
      (resampleDriver oracle ratio frames fuel i c0 b0 p0).bufCount =
        b0 + appendedFrames
          (resampleDriver oracle ratio frames fuel i c0 b0 p0).effs := by
  induction fuel generalizing i c0 b0 p0 with
  | zero =>
    unfold resampleDriver
    split <;> simp [appendedFrames_nil]
  | succ fuel ih =>
    unfold resampleDriver
    dsimp only
    split
    · split
      · simp [appendedFrames_srcProcess, appendedFrames_nil]
      · have h := ih (i + 1) (c0 + (oracle i (frames - c0)).used)
          (b0 + (oracle i (frames - c0)).gen) (p0 + (oracle i (frames - c0)).gen)
        simp only [appendedFrames_srcProcess, appendedFrames_appendData]
        omega
    · simp [appendedFrames_nil]

/-- Every effect of the resampler driver is a `src_process` call or an
append of produced output. -/
theorem resampleDriver_effs_mem (oracle : Nat → Int → SrcStep) (ratio : ℚ)
    (frames : Int) (fuel i : Nat) (c0 b0 p0 : Int) :
    ∀ e ∈ (resampleDriver oracle ratio frames fuel i c0 b0 p0).effs,
      (∃ u g, e = Effect.srcProcess ratio u g) ∨
        ∃ n, e = Effect.appendData n := by
  induction fuel generalizing i c0 b0 p0 with
  | zero =>
    unfold resampleDriver
    split <;> simp
  | succ fuel ih =>
    unfold resampleDriver
    dsimp only
    split
    · split
      · intro e he
        simp only [List.mem_singleton] at he
        exact Or.inl ⟨_, _, he⟩
      · intro e he
        simp only [List.mem_cons] at he
        rcases he with rfl | rfl | he
        · exact Or.inl ⟨_, _, rfl⟩
        · exact Or.inr ⟨_, rfl⟩
        · exact ih (i + 1) _ _ _ e he
    · simp

/-- The clock stage of the data path never changes `offsetError`. -/
theorem dataClockView_offsetError (now size : Int) (a : Audio) :
    (dataClockView now size a).sp.offsetError = a.spiceData.offsetError := by
  unfold dataClockView
  dsimp only
  rw [(spiceClockUpdate_preserves _ _ _ _ _ _).2.1,
    (spiceTickDrain_preserves _ _).2.2.2.2.2.2.1]
  split <;> rfl

/-- The clock stage of the data path never changes `ratioIntegral`. -/
theorem dataClockView_ratioIntegral (now size : Int) (a : Audio) :
    (dataClockView now size a).sp.ratioIntegral =
      a.spiceData.ratioIntegral := by
  unfold dataClockView
  dsimp only
  rw [(spiceClockUpdate_preserves _ _ _ _ _ _).2.2.2.1,
    (spiceTickDrain_preserves _ _).2.2.2.2.2.2.2.2.1]
  split <;> rfl

/-- The clock stage of the data path makes no buffer call or a single
`NULL` append. -/
theorem dataClockView_effs (now size : Int) (a : Audio) :
    (dataClockView now size a).effs = [] ∨
      ∃ n, (dataClockView now size a).effs = [Effect.appendNull n] := by
  unfold dataClockView
  dsimp only
  exact spiceClockUpdate_effs _ _ _ _ _ _

/-- Upper bound on the driver's final `consumed` and exactness at a
normal exit, given the `src_process` contract that a call never consumes
more input than it is given. -/
theorem resampleDriver_le (oracle : Nat → Int → SrcStep) (ratio : ℚ)
    (frames : Int) (fuel i : Nat) (c0 b0 p0 : Int)
    (hO : ∀ j n, 0 ≤ n → 0 ≤ (oracle j n).used ∧ (oracle j n).used ≤ n) :
    c0 ≤ frames →
      (resampleDriver oracle ratio frames fuel i c0 b0 p0).consumed ≤ frames ∧
        ((resampleDriver oracle ratio frames fuel i c0 b0 p0).outcome =
            DriverOutcome.done →
          frames ≤
            (resampleDriver oracle ratio frames fuel i c0 b0 p0).consumed) := by
  induction fuel generalizing i c0 b0 p0 with
  | zero =>
    intro hcf
    unfold resampleDriver
    split
    · exact ⟨hcf, fun h => DriverOutcome.noConfusion h⟩
    · next h => exact ⟨hcf, fun _ => Int.not_lt.mp h⟩
  | succ fuel ih =>
    intro hcf
    unfold resampleDriver
    dsimp only
    split
    · next hlt =>
      split
      · exact ⟨hcf, fun h => DriverOutcome.noConfusion h⟩
      · have hu := hO i (frames - c0) (by omega)
        exact ih (i + 1) (c0 + (oracle i (frames - c0)).used) _ _ (by omega)
    · next h => exact ⟨hcf, fun _ => Int.not_lt.mp h⟩

/-! ### Claim theorems -/

/-- C10: a sink pull request for zero frames returns 0 immediately and has
no effect at all: state, coupling buffer, tick queue and sink clock are
unchanged, no effects are emitted, and the DRAIN-to-STOP check is not
performed (this equation holds for every state, including DRAIN with an
empty buffer). -/
theorem pullFrames_zero (now : Int) (a : Audio) :
    playbackPullFrames now 0 a = (a, 0, []) := by
  simp [playbackPullFrames]

/-- C7: source data arriving while the stream state is STOP or DRAIN (not
STREAM_ACTIVE) is dropped without any effect: the engine state is returned
unchanged and no buffer, clock, filter or controller effect is emitted. -/
theorem playbackData_inactive (oracle : Nat → Int → SrcStep) (fuel : Nat)
    (now size : Int) (a : Audio)
    (h : a.state = StreamState.stop ∨ a.state = StreamState.drain) :
    audio_playbackData oracle fuel now size a = (a, []) := by
  unfold audio_playbackData
  rcases h with h | h <;> simp [STREAM_ACTIVE, h]

theorem playbackData_inactive_witness :
    audio_playbackData (fun _ _ => ⟨false, 0, 0⟩) 1 0 4 baseAudio =
      (baseAudio, []) :=
  playbackData_inactive _ 1 0 4 baseAudio (Or.inl rfl)

/-- C1 (amended): on a period-size change that is not the first tick ever
(`periodFrames != 0`), the SINK-side tracker advances `nextTime` by the
old `periodSec`, updates `periodFrames` and `periodSec` to the new period,
recomputes `b = sqrt2*omega` and `c = omega^2` with
`omega = 2*pi*0.05*periodSec` (the new `periodSec`), and advances
`nextPosition` by `frames`.  The SOURCE-side tracker instead updates
`periodSec` first and advances `nextTime` by the NEW `periodSec`, and its
`nextPosition` is not advanced by the tracker (the resampler loop advances
it by the produced output). -/
theorem clock_periodChange_noninit (sampleRate now frames : Int)
    (d : PlaybackDeviceData) (sp : PlaybackSpiceData)
    (hdf : frames ≠ d.periodFrames) (hd0 : d.periodFrames ≠ 0) :
    (deviceClockUpdate sampleRate now frames d).1 =
      { periodFrames := frames
        periodSec := (frames : ℚ) / (sampleRate : ℚ)
        nextTime := d.nextTime + c_llrint (d.periodSec * 1.0e9)
        nextPosition := d.nextPosition + frames
        b := M_SQRT2 * (2 * M_PI * 0.05 * ((frames : ℚ) / (sampleRate : ℚ)))
        c := (2 * M_PI * 0.05 * ((frames : ℚ) / (sampleRate : ℚ))) *
          (2 * M_PI * 0.05 * ((frames : ℚ) / (sampleRate : ℚ))) }
    ∧ (deviceClockUpdate sampleRate now frames d).2 = []
    ∧ (spiceClockUpdate sampleRate now frames true false sp).sp.nextTime =
        sp.nextTime + c_llrint (((frames : ℚ) / (sampleRate : ℚ)) * 1.0e9)
    ∧ (spiceClockUpdate sampleRate now frames true false sp).sp.periodSec =
        (frames : ℚ) / (sampleRate : ℚ)
    ∧ (spiceClockUpdate sampleRate now frames true false sp).sp.nextPosition =
        sp.nextPosition := by
  unfold deviceClockUpdate spiceClockUpdate
  simp [hdf, hd0]

/-- Sink-side tracker state for the C1 instances: old period 480 frames,
old periodSec 1/100 s. -/
def c1d : PlaybackDeviceData :=
  { basePlaybackDeviceData with
    periodFrames := 480, periodSec := 1 / 100,
    nextTime := 1000000000, nextPosition := 1000 }

/-- Source-side tracker state for the C1 counterexample: old period 480
frames, old periodSec 1/100 s. -/
def c1sp : PlaybackSpiceData :=
  { basePlaybackSpiceData with
    periodFrames := 480, periodSec := 1 / 100,
    nextTime := 1000000000, nextPosition := 1000 }

/-- C1 counterexample: at a source-side period change from 480 frames
(periodSec 1/100 s) to 960 frames at 48 kHz, the source tracker advances
`nextTime` by the NEW periodSec (20 ms), not the old one (10 ms) as the
claim states, and it does not advance `nextPosition` by `frames`. -/
theorem clock_periodChange_src_cex :
    ¬ ((spiceClockUpdate 48000 2000000000 960 true false c1sp).sp.nextTime =
          c1sp.nextTime + c_llrint (c1sp.periodSec * 1.0e9)
       ∧ (spiceClockUpdate 48000 2000000000 960 true false
            c1sp).sp.nextPosition = c1sp.nextPosition + 960) := by
  norm_num [spiceClockUpdate, c1sp, basePlaybackSpiceData, c_llrint]

theorem clock_periodChange_noninit_witness :
    (deviceClockUpdate 48000 2000000000 960 c1d).2 = [] :=
  (clock_periodChange_noninit 48000 2000000000 960 c1d c1sp
    (by norm_num [c1d, basePlaybackDeviceData])
    (by norm_num [c1d, basePlaybackDeviceData])).2.1

/-- C2: on a same-period tick whose clock error
`e = (now - nextTime)*1e-9` satisfies `|e| >= 0.2`, with
`slewFrames = round(e*sampleRate)`: the sink consumes `slewFrames` frames
with a NULL destination, sets `nextTime = now + periodSec*1e9` (with
`periodSec` reset to `frames/sampleRate`) and
`nextPosition += slewFrames + frames`; the source appends `slewFrames`
silent frames (NULL append), exposes `curTime = now` and
`curPosition = nextPosition + slewFrames`, resets
`periodSec = frames/sampleRate`, sets `nextTime = now + periodSec*1e9`
and sets `nextPosition = curPosition`. -/
theorem clock_slew (sampleRate nowD framesD nowS framesS : Int)
    (d : PlaybackDeviceData) (sp : PlaybackSpiceData)
    (hdP : framesD = d.periodFrames)
    (hdE : 0.2 ≤ |((nowD - d.nextTime : Int) : ℚ) * 1.0e-9|)
    (hsP : framesS = sp.periodFrames)
    (hsE : 0.2 ≤ |((nowS - sp.nextTime : Int) : ℚ) * 1.0e-9|) :
    (deviceClockUpdate sampleRate nowD framesD d).2 =
        [Effect.consumeNull (c_round (((nowD - d.nextTime : Int) : ℚ) *
          1.0e-9 * (sampleRate : ℚ)))]
    ∧ (deviceClockUpdate sampleRate nowD framesD d).1.nextTime =
        nowD + c_llrint (((framesD : ℚ) / (sampleRate : ℚ)) * 1.0e9)
    ∧ (deviceClockUpdate sampleRate nowD framesD d).1.nextPosition =
        d.nextPosition + c_round (((nowD - d.nextTime : Int) : ℚ) *
          1.0e-9 * (sampleRate : ℚ)) + framesD
    ∧ (spiceClockUpdate sampleRate nowS framesS
        (decide (framesS ≠ sp.periodFrames)) (decide (sp.periodFrames = 0))
        sp).effs =
        [Effect.appendNull (c_round (((nowS - sp.nextTime : Int) : ℚ) *
          1.0e-9 * (sampleRate : ℚ)))]
    ∧ (spiceClockUpdate sampleRate nowS framesS
        (decide (framesS ≠ sp.periodFrames)) (decide (sp.periodFrames = 0))
        sp).curTime = nowS
    ∧ (spiceClockUpdate sampleRate nowS framesS
        (decide (framesS ≠ sp.periodFrames)) (decide (sp.periodFrames = 0))
        sp).curPosition =
        sp.nextPosition + c_round (((nowS - sp.nextTime : Int) : ℚ) *
          1.0e-9 * (sampleRate : ℚ))
    ∧ (spiceClockUpdate sampleRate nowS framesS
        (decide (framesS ≠ sp.periodFrames)) (decide (sp.periodFrames = 0))
        sp).sp.periodSec = (framesS : ℚ) / (sampleRate : ℚ)
    ∧ (spiceClockUpdate sampleRate nowS framesS
        (decide (framesS ≠ sp.periodFrames)) (decide (sp.periodFrames = 0))
        sp).sp.nextTime =
        nowS + c_llrint (((framesS : ℚ) / (sampleRate : ℚ)) * 1.0e9)
    ∧ (spiceClockUpdate sampleRate nowS framesS
        (decide (framesS ≠ sp.periodFrames)) (decide (sp.periodFrames = 0))
        sp).sp.nextPosition =
        sp.nextPosition + c_round (((nowS - sp.nextTime : Int) : ℚ) *
          1.0e-9 * (sampleRate : ℚ)) := by
  push_cast at hdE hsE
  unfold deviceClockUpdate spiceClockUpdate
  simp [hdP, hsP, hdE, hsE]

/-- Sink-side tracker state for the C2 witness. -/
def c2d : PlaybackDeviceData :=
  { basePlaybackDeviceData with
    periodFrames := 480, periodSec := 1 / 100, nextPosition := 100 }

/-- Source-side tracker state for the C2 witness. -/
def c2sp : PlaybackSpiceData :=
  { basePlaybackSpiceData with
    periodFrames := 480, periodSec := 1 / 100 }

theorem clock_slew_witness :
    (deviceClockUpdate 48000 300000000 480 c2d).1.nextPosition =
      c2d.nextPosition + c_round (((300000000 - c2d.nextTime : Int) : ℚ) *
        1.0e-9 * (48000 : ℚ)) + 480 :=
  (clock_slew 48000 300000000 480 300000000 480 c2d c2sp
    (by norm_num [c2d, basePlaybackDeviceData])
    (by rw [show ((300000000 - c2d.nextTime : Int) : ℚ) * 1.0e-9 = 0.3 by
          norm_num [c2d, basePlaybackDeviceData]]
        rw [abs_of_nonneg (by norm_num)]
        norm_num)
    (by norm_num [c2sp, basePlaybackSpiceData])
    (by rw [show ((300000000 - c2sp.nextTime : Int) : ℚ) * 1.0e-9 = 0.3 by
          norm_num [c2sp, basePlaybackSpiceData]]
        rw [abs_of_nonneg (by norm_num)]
        norm_num)).2.2.1

/-- C4: whenever at least one sink tick pair has been observed
(`devLastTime != INT64_MIN`), the target latency in frames equals
`13*sampleRate/1000 + deviceMaxPeriodFrames*1.1`, increased by exactly
`deviceMaxPeriodFrames - devPeriodFrames` when the most recent sink
period is strictly below the maximum; the offset filter of the data path
measures against exactly this target. -/
theorem target_latency (sampleRate maxP dev ct cp : Int)
    (sp : PlaybackSpiceData) (h : sp.devLastTime ≠ INT64_MIN) :
    targetLatencyFrames sampleRate maxP dev =
        ((13 * sampleRate : Int) : ℚ) / 1000.0 + (maxP : ℚ) * 1.1 +
          (if dev < maxP then ((maxP - dev : Int) : ℚ) else 0)
    ∧ (offsetUpdate sampleRate maxP ct cp sp).sp.offsetError =
        sp.offsetError + sp.b *
          (-(((cp : ℚ) - ((sp.devLastPosition : ℚ) +
              ((sp.devNextPosition - sp.devLastPosition : Int) : ℚ) *
                (((ct - sp.devLastTime : Int) : ℚ) /
                  ((sp.devNextTime - sp.devLastTime : Int) : ℚ)))) -
            targetLatencyFrames sampleRate maxP sp.devPeriodFrames) -
            sp.offsetError) + sp.offsetErrorIntegral := by
  constructor
  · unfold targetLatencyFrames
    dsimp only
    split
    · push_cast
      ring
    · push_cast
      ring
  · unfold offsetUpdate
    dsimp only
    rw [if_pos h]

/-- Source-side state for the C4 witness: a sink tick pair has been
observed and the sink runs below its maximum period. -/
def c4sp : PlaybackSpiceData :=
  { basePlaybackSpiceData with
    devLastTime := 0, devNextTime := 1000000, devLastPosition := 0,
    devNextPosition := 1000, devPeriodFrames := 256 }

theorem target_latency_witness :
    targetLatencyFrames 48000 1024 256 =
      ((13 * 48000 : Int) : ℚ) / 1000.0 + (1024 : ℚ) * 1.1 +
        (if (256 : Int) < 1024 then ((1024 - 256 : Int) : ℚ) else 0) :=
  (target_latency 48000 1024 256 7 9 c4sp (by decide)).1

/-- C5: on every accepted source-data invocation the resample ratio is
computed from the offsetError value as it stood before this invocation's
offset-filter update: the stored `ratioIntegral` becomes
`ratioIntegral + offsetError_pre * periodSec`, and every `src_process`
call of the invocation is issued with
`ratio = 1 + (5e-7*offsetError_pre + 1e-16*ratioIntegral_new)`; the newly
filtered `offsetError` can influence the ratio only on the next
invocation. -/
theorem ratio_pre_update (oracle : Nat → Int → SrcStep) (fuel : Nat)
    (now size : Int) (a : Audio)
    (hsz : size ≠ 0) (hact : STREAM_ACTIVE a.state = true) :
    (audio_playbackData oracle fuel now size a).1.spiceData.ratioIntegral =
        a.spiceData.ratioIntegral + a.spiceData.offsetError *
          (dataClockView now size a).sp.periodSec
    ∧ (∀ r u g, Effect.srcProcess r u g ∈
        (audio_playbackData oracle fuel now size a).2 →
        r = 1.0 + (kp * a.spiceData.offsetError +
          ki * (a.spiceData.ratioIntegral + a.spiceData.offsetError *
            (dataClockView now size a).sp.periodSec))) := by
  have hpre : (dataOffsetView now size a).offsetErrorPre =
      a.spiceData.offsetError := by
    unfold dataOffsetView
    rw [offsetUpdate_pre, dataClockView_offsetError]
  have hri : (dataOffsetView now size a).sp.ratioIntegral =
      a.spiceData.ratioIntegral := by
    unfold dataOffsetView
    rw [(offsetUpdate_preserves _ _ _ _ _).2.2.2, dataClockView_ratioIntegral]
  have hps : (dataOffsetView now size a).sp.periodSec =
      (dataClockView now size a).sp.periodSec := by
    unfold dataOffsetView
    exact (offsetUpdate_preserves _ _ _ _ _).2.1
  have hpi : (dataPiView now size a).ratioIntegral =
      a.spiceData.ratioIntegral + a.spiceData.offsetError *
        (dataClockView now size a).sp.periodSec := by
    unfold dataPiView piController
    dsimp only
    rw [hpre, hri, hps]
  have hratio : (dataPiView now size a).ratio =
      1.0 + (kp * a.spiceData.offsetError +
        ki * (a.spiceData.ratioIntegral + a.spiceData.offsetError *
          (dataClockView now size a).sp.periodSec)) := by
    unfold dataPiView piController
    dsimp only
    rw [hpre, hri, hps]
  have hdrv : ∀ e ∈ (dataDriverView oracle fuel now size a).effs,
      (∃ u g, e = Effect.srcProcess (dataPiView now size a).ratio u g) ∨
        ∃ n, e = Effect.appendData n := by
    unfold dataDriverView
    exact resampleDriver_effs_mem _ _ _ _ _ _ _ _
  have hsrc : ∀ r u g, Effect.srcProcess r u g ∈
      (dataClockView now size a).effs ++
        (dataDriverView oracle fuel now size a).effs →
      r = (dataPiView now size a).ratio := by
    intro r u g hm
    rw [List.mem_append] at hm
    rcases hm with hm | hm
    · rcases dataClockView_effs now size a with h | ⟨n, h⟩ <;>
        rw [h] at hm <;> simp at hm
    · rcases hdrv _ hm with ⟨u2, g2, he⟩ | ⟨n, he⟩
      · cases he
        rfl
      · exact Effect.noConfusion he
  constructor
  · unfold audio_playbackData
    rw [if_neg hsz, if_neg (by simp [hact])]
    dsimp only
    split
    · split
      · split
        · exact hpi
        · exact hpi
      · exact hpi
    · exact hpi
  · intro r u g hmem
    unfold audio_playbackData at hmem
    rw [if_neg hsz, if_neg (by simp [hact])] at hmem
    dsimp only at hmem
    rw [← hratio]
    split at hmem
    · split at hmem
      · split at hmem
        · rw [List.mem_append] at hmem
          rcases hmem with hmem | hmem
          · exact hsrc r u g hmem
          · simp at hmem
        · exact hsrc r u g hmem
      · exact hsrc r u g hmem
    · exact hsrc r u g hmem

/-- Engine state for the C5 witness: an active stream in SETUP. -/
def c5a : Audio :=
  { baseAudio with state := StreamState.setup }

theorem ratio_pre_update_witness :
    (audio_playbackData (fun _ n => ⟨false, n, 0⟩) 1 0 4 c5a).1.spiceData.ratioIntegral =
      c5a.spiceData.ratioIntegral + c5a.spiceData.offsetError *
        (dataClockView 0 4 c5a).sp.periodSec :=
  (ratio_pre_update (fun _ n => ⟨false, n, 0⟩) 1 0 4 c5a
    (by norm_num) rfl).1

/-- C6: the resampler driver loop runs until `consumed = frames`:
whenever the loop exits normally the whole source period has been
consumed, a state with `consumed < frames` can only be left through a
resampler error (in C the loop would otherwise still be running), and the
coupling buffer and `nextPosition` advance by exactly the appended output
blocks (`output_frames_gen` of each call). -/
theorem resampler_drains (oracle : Nat → Int → SrcStep) (ratio : ℚ)
    (frames : Int) (fuel i : Nat) (c0 b0 p0 : Int)
    (hO : ∀ j n, 0 ≤ n → 0 ≤ (oracle j n).used ∧ (oracle j n).used ≤ n)
    (hcf : c0 ≤ frames) :
    ((resampleDriver oracle ratio frames fuel i c0 b0 p0).outcome =
        DriverOutcome.done →
      (resampleDriver oracle ratio frames fuel i c0 b0 p0).consumed = frames)
    ∧ ((resampleDriver oracle ratio frames fuel i c0 b0 p0).consumed <
          frames →
        (resampleDriver oracle ratio frames fuel i c0 b0 p0).outcome ≠
          DriverOutcome.done)
    ∧ (resampleDriver oracle ratio frames fuel i c0 b0 p0).nextPosition =
        p0 + appendedFrames
          (resampleDriver oracle ratio frames fuel i c0 b0 p0).effs
    ∧ (resampleDriver oracle ratio frames fuel i c0 b0 p0).bufCount =
        b0 + appendedFrames
          (resampleDriver oracle ratio frames fuel i c0 b0 p0).effs := by
  have h1 := resampleDriver_le oracle ratio frames fuel i c0 b0 p0 hO hcf
  have h2 := resampleDriver_counts oracle ratio frames fuel i c0 b0 p0
  exact ⟨fun h => le_antisymm h1.1 (h1.2 h),
    fun hlt hdone => absurd (h1.2 hdone) (by omega), h2.1, h2.2⟩

theorem resampler_drains_witness :
    (resampleDriver (fun _ n => ⟨false, n, 7⟩) 1 10 3 0 0 0 0).consumed =
      10 :=
  (resampler_drains (fun _ n => ⟨false, n, 7⟩) 1 10 3 0 0 0 0
    (fun _ n hn => ⟨hn, le_refl n⟩) (by norm_num)).1 rfl

/-- C9 (code bug): with a cached record volume vector of [30000] for one
channel and record mute false, but playback cache volume [10000] and mute
true, a fresh `audio_recordStart` forwards the PLAYBACK cached values to
the record callbacks, not the record-side cache the claim (and the code's
own guard on `record.volumeChannels`) intends. -/
def c9a : Audio :=
  { baseAudio with
    recVolumeChannels := 1, recVolume := [30000], recMute := false,
    pbVolumeChannels := 1, pbVolume := [10000], pbMute := true }

/-- C9: evaluation of `audio_recordStart` at the failing input: the
record callbacks receive the playback cache (volume [10000], mute true)
although the record cache holds volume [30000], mute false. -/
theorem record_start_uses_playback_cache :
    (audio_recordStart 2 48000 c9a).2 =
        [Effect.recordStartDev 2 48000, Effect.recordVolume 1 [10000],
         Effect.recordMute true]
    ∧ c9a.recVolume = [30000] ∧ c9a.recVolumeChannels = 1
    ∧ c9a.recMute = false := by
  refine ⟨?_, rfl, rfl, rfl⟩
  simp [audio_recordStart, c9a, baseAudio]

/-- The pull body never changes the stream state, the allocation flags or
the source-side data. -/
theorem pullBody_preserves (now frames : Int) (a : Audio) :
    (pullBody now frames a).1.state = a.state ∧
      (pullBody now frames a).1.bufferAlloc = a.bufferAlloc ∧
      (pullBody now frames a).1.timingsAlloc = a.timingsAlloc ∧
      (pullBody now frames a).1.spiceData = a.spiceData ∧
      (pullBody now frames a).1.deviceTimingAlloc = a.deviceTimingAlloc ∧
      (pullBody now frames a).1.srcAlloc = a.srcAlloc ∧
      (pullBody now frames a).1.graphRegistered = a.graphRegistered := by
  unfold pullBody
  split <;> simp

/-- `playbackStop` either was a no-op or called the backend stop. -/
theorem playbackStop_effs (a : Audio) :
    (playbackStop a).2 = [] ∨ (playbackStop a).2 = [Effect.devStop] := by
  unfold playbackStop
  split
  · exact Or.inl rfl
  · exact Or.inr rfl

/-- C8: while draining, a sink pull that observes a coupling-buffer count
of at most 0 executes `playbackStop`: the state becomes STOP, the
backend's stop callback is invoked, the coupling buffer and the tick
queue are freed, the resampler is destroyed, the scratch buffers are
freed and the visualization sink is unregistered; and `playbackStop` is
idempotent (a call in STOP changes nothing and calls nothing). -/
theorem drain_empty_stops (now frames : Int) (a : Audio)
    (hf : frames ≠ 0) (hst : a.state = StreamState.drain)
    (ht : a.timingsAlloc = true)
    (hfi : a.spiceData.framesInAlloc = true)
    (hc : (playbackPullFrames now frames a).1.bufCount ≤ 0) :
    ((playbackPullFrames now frames a).1.state = StreamState.stop
     ∧ Effect.devStop ∈ (playbackPullFrames now frames a).2.2
     ∧ (playbackPullFrames now frames a).1.bufferAlloc = false
     ∧ (playbackPullFrames now frames a).1.deviceTimingAlloc = false
     ∧ (playbackPullFrames now frames a).1.srcAlloc = false
     ∧ (playbackPullFrames now frames a).1.spiceData.framesInAlloc = false
     ∧ (playbackPullFrames now frames a).1.spiceData.framesOutAlloc = false
     ∧ (playbackPullFrames now frames a).1.timingsAlloc = false
     ∧ (playbackPullFrames now frames a).1.graphRegistered = false)
    ∧ (∀ b : Audio, b.state = StreamState.stop → playbackStop b = (b, [])) := by
  have hpres := pullBody_preserves now frames a
  constructor
  · unfold playbackPullFrames at hc ⊢
    rw [if_neg hf] at hc ⊢
    dsimp only at hc ⊢
    by_cases hcond : (pullBody now frames a).1.state = StreamState.drain ∧
        (pullBody now frames a).1.bufCount ≤ 0
    · rw [if_pos hcond] at hc ⊢
      dsimp only at hc ⊢
      unfold playbackStop at hc ⊢
      rw [if_neg (by rw [hpres.1, hst]; intro h; exact StreamState.noConfusion h)]
        at hc ⊢
      dsimp only at hc ⊢
      rw [hpres.2.2.2.1, hfi]
      refine ⟨rfl, ?_, rfl, rfl, rfl, ?_, ?_, rfl, ?_⟩
      · simp
      · rw [if_pos rfl]
      · rw [if_pos rfl]
      · rw [hpres.2.2.1, ht]
        simp
    · rw [if_neg hcond] at hc
      exact absurd ⟨hpres.1.trans hst, hc⟩ hcond
  · intro b hb
    unfold playbackStop
    rw [if_pos hb]

/-- Engine state for the C8 witness: a draining stream whose buffer holds
3 frames while the sink pulls periods of 4 frames at 40 Hz. -/
def c8a : Audio :=
  { baseAudio with
    state := StreamState.drain, bufferAlloc := true, timingsAlloc := true,
    graphRegistered := true, srcAlloc := true, deviceTimingAlloc := true,
    sampleRate := 40, bufCount := 3,
    deviceData := { basePlaybackDeviceData with
      periodFrames := 4, periodSec := 1 / 10, nextTime := 5 },
    spiceData := { basePlaybackSpiceData with
      framesInAlloc := true, framesOutAlloc := true } }

theorem drain_empty_stops_witness :
    (playbackPullFrames 5 4 c8a).1.bufCount ≤ 0 ∧
      (playbackPullFrames 5 4 c8a).1.state = StreamState.stop := by
  have hc : (playbackPullFrames 5 4 c8a).1.bufCount ≤ 0 := by
    norm_num [playbackPullFrames, pullBody, playbackStop, deviceClockUpdate,
      c8a, baseAudio, basePlaybackDeviceData, basePlaybackSpiceData,
      bufDelta, Effect.bufDelta]
    decide
  exact ⟨hc, (drain_empty_stops 5 4 c8a (by norm_num) rfl rfl rfl hc).1.1⟩

/-- The clock stage keeps write position and buffer count in step. -/
theorem dataClockView_nextPosition (now size : Int) (a : Audio) :
    (dataClockView now size a).sp.nextPosition =
      a.spiceData.nextPosition + bufDelta (dataClockView now size a).effs := by
  unfold dataClockView
  dsimp only
  rw [spiceClockUpdate_nextPosition, (spiceTickDrain_preserves _ _).2.2.2.1]
  congr 1
  split <;> rfl

/-- The offset stage does not move the write position. -/
theorem dataOffset_nextPosition (now size : Int) (a : Audio) :
    (dataOffsetView now size a).sp.nextPosition =
      (dataClockView now size a).sp.nextPosition := by
  unfold dataOffsetView
  exact (offsetUpdate_preserves _ _ _ _ _).2.2.1

/-- The driver stage advances write position and buffer count equally. -/
theorem dataDriver_counts (oracle : Nat → Int → SrcStep) (fuel : Nat)
    (now size : Int) (a : Audio) :
    (dataDriverView oracle fuel now size a).nextPosition =
        (dataOffsetView now size a).sp.nextPosition +
          appendedFrames (dataDriverView oracle fuel now size a).effs ∧
      (dataDriverView oracle fuel now size a).bufCount =
        (a.bufCount + bufDelta (dataClockView now size a).effs) +
          appendedFrames (dataDriverView oracle fuel now size a).effs := by
  unfold dataDriverView
  exact resampleDriver_counts _ _ _ _ _ _ _ _

/-- An accepted source-data invocation shifts the buffer count by exactly
the amount it shifts the source write position. -/
theorem data_shift (oracle : Nat → Int → SrcStep) (fuel : Nat)
    (now size : Int) (a : Audio)
    (hsz : size ≠ 0) (hact : STREAM_ACTIVE a.state = true) :
    (audio_playbackData oracle fuel now size a).1.bufCount =
      a.bufCount - a.spiceData.nextPosition +
        (audio_playbackData oracle fuel now size a).1.spiceData.nextPosition := by
  have h1 := dataDriver_counts oracle fuel now size a
  have h2 := dataOffset_nextPosition now size a
  have h3 := dataClockView_nextPosition now size a
  unfold audio_playbackData
  rw [if_neg hsz, if_neg (by simp [hact])]
  dsimp only
  split
  · split
    · split
      · dsimp only
        omega
      · dsimp only
        omega
    · dsimp only
      omega
  · dsimp only
    omega

/-- The state after a source-data invocation is the old state, except for
the SETUP to RUN transition of the start gate. -/
theorem data_state (oracle : Nat → Int → SrcStep) (fuel : Nat)
    (now size : Int) (a : Audio) :
    (audio_playbackData oracle fuel now size a).1.state = a.state ∨
      ((audio_playbackData oracle fuel now size a).1.state =
          StreamState.run ∧ a.state = StreamState.setup) := by
  unfold audio_playbackData
  split
  · exact Or.inl rfl
  · split
    · exact Or.inl rfl
    · dsimp only
      split
      · split
        · next hsetup =>
          split
          · exact Or.inr ⟨rfl, hsetup⟩
          · exact Or.inl rfl
        · exact Or.inl rfl
      · exact Or.inl rfl

/-- Neither clock-stage nor driver-stage effects contain the backend
start call. -/
theorem data_core_no_devStart (oracle : Nat → Int → SrcStep) (fuel : Nat)
    (now size : Int) (a : Audio) :
    Effect.devStart ∉ (dataClockView now size a).effs ++
      (dataDriverView oracle fuel now size a).effs := by
  intro hm
  rw [List.mem_append] at hm
  rcases hm with hm | hm
  · rcases dataClockView_effs now size a with h | ⟨n, h⟩ <;> rw [h] at hm <;>
      simp at hm
  · have h2 := resampleDriver_effs_mem oracle (dataPiView now size a).ratio
      (size / (a.channels * 2)) fuel 0 0
      (a.bufCount + bufDelta (dataClockView now size a).effs)
      (dataOffsetView now size a).sp.nextPosition
    rcases h2 _ hm with ⟨u, g, he⟩ | ⟨n, he⟩ <;> exact Effect.noConfusion he

/-- The backend start call occurs in a source-data invocation exactly at
the SETUP to RUN transition. -/
theorem data_devStart_iff (oracle : Nat → Int → SrcStep) (fuel : Nat)
    (now size : Int) (a : Audio) :
    Effect.devStart ∈ (audio_playbackData oracle fuel now size a).2 ↔
      (a.state = StreamState.setup ∧
        (audio_playbackData oracle fuel now size a).1.state =
          StreamState.run) := by
  have hno := data_core_no_devStart oracle fuel now size a
  unfold audio_playbackData
  split
  · simp
    rintro h1 h2
    rw [h1] at h2
    exact StreamState.noConfusion h2
  · split
    · simp
      rintro h1 h2
      rw [h1] at h2
      exact StreamState.noConfusion h2
    · dsimp only
      split
      · split
        · next hsetup =>
          split
          · constructor
            · intro _
              exact ⟨hsetup, rfl⟩
            · intro _
              rw [List.mem_append]
              exact Or.inr (by simp)
          · constructor
            · intro hm
              exact absurd hm hno
            · rintro ⟨h1, h2⟩
              exact StreamState.noConfusion (hsetup.symm.trans h2)
        · next hnsetup =>
          constructor
          · intro hm
            exact absurd hm hno
          · rintro ⟨h1, h2⟩
            exact absurd h1 hnsetup
      · constructor
        · intro hm
          exact absurd hm hno
        · rintro ⟨h1, h2⟩
          exact StreamState.noConfusion (h1.symm.trans h2)

/-- The pull body emits only clock, tick and consume effects. -/
theorem pullBody_no_devStart (now frames : Int) (a : Audio) :
    Effect.devStart ∉ (pullBody now frames a).2.2 := by
  unfold pullBody
  split
  · dsimp only
    intro hm
    rw [List.mem_append] at hm
    rcases hm with hm | hm
    · rcases deviceClockUpdate_effs a.sampleRate now frames a.deviceData with
        h | ⟨n, h⟩ <;> rw [h] at hm <;> simp at hm
    · simp at hm
  · simp

/-- A sink pull never calls the backend start. -/
theorem pull_no_devStart (now frames : Int) (a : Audio) :
    Effect.devStart ∉ (playbackPullFrames now frames a).2.2 := by
  unfold playbackPullFrames
  split
  · simp
  · dsimp only
    split
    · intro hm
      rw [List.mem_append] at hm
      rcases hm with hm | hm
      · exact pullBody_no_devStart now frames a hm
      · rcases playbackStop_effs (pullBody now frames a).1 with h | h <;>
          rw [h] at hm <;> simp at hm
    · exact pullBody_no_devStart now frames a

/-- A sink pull keeps the state except for the DRAIN to STOP teardown. -/
theorem pull_state (now frames : Int) (a : Audio) :
    (playbackPullFrames now frames a).1.state = a.state ∨
      (playbackPullFrames now frames a).1.state = StreamState.stop := by
  unfold playbackPullFrames
  split
  · exact Or.inl rfl
  · dsimp only
    split
    · unfold playbackStop
      split
      · exact Or.inl (pullBody_preserves now frames a).1
      · exact Or.inr rfl
    · exact Or.inl (pullBody_preserves now frames a).1

/-- A stream (re)start leaves the engine in SETUP. -/
theorem start_state (c r m : Int) (a : Audio) :
    (audio_playbackStart c r m a).1.state = StreamState.setup := rfl

/-- A stream (re)start never calls the backend start. -/
theorem start_no_devStart (c r m : Int) (a : Audio) :
    Effect.devStart ∉ (audio_playbackStart c r m a).2 := by
  unfold audio_playbackStart
  dsimp only
  intro hm
  simp only [List.mem_append] at hm
  rcases hm with ((hm | hm) | hm) | hm
  · revert hm
    split
    · intro hm
      rcases playbackStop_effs a with h | h <;> rw [h] at hm <;> simp at hm
    · intro hm
      simp at hm
  · simp at hm
  · revert hm
    split <;> intro hm <;> simp at hm
  · simp at hm

/-- Scheduling a drain emits no effects. -/
theorem stop_sched_no_effects (a : Audio) :
    (audio_playbackStop a).2 = [] := by
  unfold audio_playbackStop
  split <;> rfl

/-- Scheduling a drain keeps the state or moves it to DRAIN. -/
theorem stop_sched_state (a : Audio) :
    (audio_playbackStop a).1.state = a.state ∨
      (audio_playbackStop a).1.state = StreamState.drain := by
  unfold audio_playbackStop
  split
  · exact Or.inl rfl
  · exact Or.inr rfl

/-- Per-step form of the start-gating iff: the backend start callback is
emitted by a pipeline step exactly when that step transitions the stream
from SETUP to RUN. -/
theorem stepEv_devStart_iff (a : Audio) (ev : Ev) :
    Effect.devStart ∈ (stepEv a ev).2 ↔
      (a.state = StreamState.setup ∧
        (stepEv a ev).1.state = StreamState.run) := by
  cases ev with
  | start c r m =>
    dsimp only [stepEv]
    constructor
    · intro hm
      exact absurd hm (start_no_devStart c r m a)
    · rintro ⟨h1, h2⟩
      rw [start_state] at h2
      exact StreamState.noConfusion h2
  | pull now frames =>
    dsimp only [stepEv]
    constructor
    · intro hm
      exact absurd hm (pull_no_devStart now frames a)
    · rintro ⟨h1, h2⟩
      rcases pull_state now frames a with h | h <;> rw [h] at h2
      · rw [h1] at h2
        exact StreamState.noConfusion h2
      · exact StreamState.noConfusion h2
  | data oracle fuel now size =>
    dsimp only [stepEv]
    exact data_devStart_iff oracle fuel now size a
  | stopReq =>
    dsimp only [stepEv]
    constructor
    · intro hm
      rw [stop_sched_no_effects] at hm
      simp at hm
    · rintro ⟨h1, h2⟩
      rcases stop_sched_state a with h | h <;> rw [h] at h2
      · rw [h1] at h2
        exact StreamState.noConfusion h2
      · exact StreamState.noConfusion h2

/-- The `SetupResident` invariant is preserved by every pipeline step,
provided sink pulls are not delivered during SETUP. -/
theorem stepEv_resident (a : Audio) (ev : Ev) (h : SetupResident a)
    (hp : ev.isPull = true → a.state ≠ StreamState.setup) :
    SetupResident (stepEv a ev).1 := by
  cases ev with
  | start c r m =>
    intro _
    rfl
  | pull now frames =>
    intro hpost
    dsimp only [stepEv] at hpost ⊢
    rcases pull_state now frames a with hs | hs
    · exact absurd (hs.symm.trans hpost) (hp rfl)
    · rw [hs] at hpost
      exact StreamState.noConfusion hpost
  | data oracle fuel now size =>
    intro hpost
    dsimp only [stepEv] at hpost ⊢
    by_cases hsz : size = 0
    · have hz : audio_playbackData oracle fuel now size a = (a, []) := by
        unfold audio_playbackData
        rw [if_pos hsz]
      rw [hz] at hpost ⊢
      exact h hpost
    · by_cases hact : STREAM_ACTIVE a.state = true
      · rcases data_state oracle fuel now size a with hs | ⟨hs, _⟩
        · have hshift := data_shift oracle fuel now size a hsz hact
          have hres := h (hs.symm.trans hpost)
          omega
        · rw [hs] at hpost
          exact StreamState.noConfusion hpost
      · have hz : audio_playbackData oracle fuel now size a = (a, []) := by
          unfold audio_playbackData
          rw [if_neg hsz, if_pos hact]
        rw [hz] at hpost ⊢
        exact h hpost
  | stopReq =>
    intro hpost
    dsimp only [stepEv] at hpost ⊢
    unfold audio_playbackStop at hpost ⊢
    by_cases hstop : a.state = StreamState.stop
    · rw [if_pos hstop] at hpost ⊢
      exact h hpost
    · rw [if_neg hstop] at hpost ⊢
      exact StreamState.noConfusion hpost

/-- Per-step form of the resident-count bound: under the `SetupResident`
invariant, whenever a step emits the backend start call, the coupling
buffer holds at least `2*sourcePeriodFrames + 2*deviceMaxPeriodFrames`
frames at that moment. -/
theorem stepEv_devStart_bound (a : Audio) (ev : Ev) (h : SetupResident a) :
    Effect.devStart ∈ (stepEv a ev).2 →
      2 * (stepEv a ev).1.spiceData.periodFrames +
        2 * a.deviceMaxPeriodFrames ≤ (stepEv a ev).1.bufCount := by
  cases ev with
  | start c r m =>
    intro hm
    exact absurd hm (start_no_devStart c r m a)
  | pull now frames =>
    intro hm
    exact absurd hm (pull_no_devStart now frames a)
  | stopReq =>
    intro hm
    dsimp only [stepEv] at hm
    rw [stop_sched_no_effects] at hm
    simp at hm
  | data oracle fuel now size =>
    dsimp only [stepEv]
    unfold audio_playbackData
    split
    · intro hm
      simp at hm
    · split
      · intro hm
        simp at hm
      · dsimp only
        split
        · split
          · next hsetup =>
            split
            · next hge =>
              intro _
              have h1 := dataDriver_counts oracle fuel now size a
              have h2 := dataOffset_nextPosition now size a
              have h3 := dataClockView_nextPosition now size a
              have hres := h hsetup
              dsimp only at hge ⊢
              omega
            · intro hm
              exact absurd hm (data_core_no_devStart oracle fuel now size a)
          · intro hm
            exact absurd hm (data_core_no_devStart oracle fuel now size a)
        · intro hm
          exact absurd hm (data_core_no_devStart oracle fuel now size a)

/-- C3: along any pipeline trace in which the sink does not pull before
the stream leaves SETUP, the `SetupResident` invariant (every frame the
source wrote is still resident while in SETUP) is maintained; under that
invariant, the backend's `playback.start` is invoked on a step if and
only if the step transitions the state from SETUP to RUN, and whenever it
is invoked the coupling buffer holds at least
`2*sourcePeriodFrames + 2*deviceMaxPeriodFrames` frames. -/
theorem start_gating (a0 : Audio) (evs : List Ev)
    (h0 : SetupResident a0) (hg : goodTrace a0 evs = true) :
    SetupResident (runTrace a0 evs) ∧
      ∀ a ev, SetupResident a →
        ((Effect.devStart ∈ (stepEv a ev).2 ↔
            (a.state = StreamState.setup ∧
              (stepEv a ev).1.state = StreamState.run)) ∧
          (Effect.devStart ∈ (stepEv a ev).2 →
            2 * (stepEv a ev).1.spiceData.periodFrames +
              2 * a.deviceMaxPeriodFrames ≤ (stepEv a ev).1.bufCount)) := by
  constructor
  · induction evs generalizing a0 with
    | nil => exact h0
    | cons e rest ih =>
      simp only [goodTrace, Bool.and_eq_true] at hg
      simp only [runTrace]
      refine ih (stepEv a0 e).1 ?_ hg.2
      refine stepEv_resident a0 e h0 ?_
      intro hp
      have h1 := hg.1
      simp [hp] at h1
      exact h1
  · intro a ev hres
    exact ⟨stepEv_devStart_iff a ev, stepEv_devStart_bound a ev hres⟩

/-- Engine state for the C3 witness: a fresh stream in SETUP. -/
def c3a : Audio :=
  { baseAudio with state := StreamState.setup, bufferAlloc := true }

theorem start_gating_witness :
    Effect.devStart ∈ (stepEv c3a Ev.stopReq).2 ↔
      (c3a.state = StreamState.setup ∧
        (stepEv c3a Ev.stopReq).1.state = StreamState.run) :=
  ((start_gating c3a [] (fun _ => rfl) rfl).2 c3a Ev.stopReq (fun _ => rfl)).1

end LGAudio
